import Mathlib

/-!
Verification development for the ProofOK server (`src/server/server.py`).

The embedding models the record lifecycle and notification dispatch
subsystem of the Flask application:

* `Record` / `Event` mirror the JSON dictionaries built in `upload_post`
  (lines 122-125) and `respond_form` (lines 220-227).
* The record store (`save_record` / `load_record`, lines 48-57) is a
  single-record-per-token key-value store; it is embedded as a map from
  tokens to optional records.
* `email_body` (lines 176-198) is the notification composer.  The Python
  function reads the link base through `base_url()` (lines 40-43), which
  consults either the `BASE_URL` override or the inbound request's host;
  that input is made explicit as the `baseUrl` argument.
* `respond_form` (lines 200-253) is the decision workflow plus dispatcher.
  Request-supplied form fields arrive as `Option String` (Python's
  `request.form.get(...) or ""` collapses a missing field and the empty
  string to `""`; `Option.getD ""` does the same for `none`).  The clock,
  the client address and the outbound channel's behaviour are explicit
  arguments; the channel behaviour is a `SendResult` saying whether
  `send_email` succeeds, raises, or (in the bounded-async mode) fails to
  finish within `SMTP_TIMEOUT`.
* Python strings are modelled as Lean `String`s; `.lower()`, `.upper()`,
  `.strip()` and single-character `.replace` become structural functions
  over the string's character list (`py_lower`, `py_upper`, `py_strip`,
  `replaceChar`, `expandChar` below).

Outputs that the Python code performs as side effects (which messages are
composed, which are handed to the outbound channel) are returned as
explicit lists so that "no send was attempted" is a provable statement.
-/

/-- One decision event, as appended by `respond_form` (server.py 220-227). -/
structure Event where
  ts_utc : String
  decision : String
  comment : String
  viewer_name : String
  viewer_email : String
  ip : String
deriving DecidableEq, Repr

/-- One submission record, as created by `upload_post` / `api_upload`
(server.py 123-124, 148-149). -/
structure Record where
  token : String
  original_name : String
  stored_name : String
  created_utc : String
  status : String
  responses : List Event
deriving DecidableEq, Repr

/-- The record store: one JSON file per token under `DATA_DIR`
(server.py 45-57), embedded as a key-value map. -/
def Store : Type := String → Option Record

/-- The store with no records. -/
def emptyStore : Store := fun _ => none

/-- `save_record(token, record)` (server.py 48-50): whole-record write. -/
def save_record (st : Store) (token : String) (record : Record) : Store :=
  fun t => if t = token then some record else st t

/-- `load_record(token)` (server.py 52-57): whole-record read, `none` when
the file does not exist. -/
def load_record (st : Store) (token : String) : Option Record :=
  st token

/-- Environment-sourced configuration used by the dispatcher
(server.py 18-26): SMTP host/port, `SMTP_TIMEOUT`, and the lowercased
`EMAIL_MODE` string (`"off"`, `"sync"`, anything else means bounded-async). -/
structure Config where
  smtpHost : String
  smtpPort : Nat
  smtpTimeout : Nat
  emailMode : String
deriving DecidableEq, Repr

/-- Behaviour of one outbound `send_email` attempt, as observed by
`respond_form`: the call returns, raises an exception with text `e`, or
(async mode) is still running when `fut.result(timeout=SMTP_TIMEOUT)`
gives up. -/
inductive SendResult where
  | ok : SendResult
  | exn (e : String) : SendResult
  | timeout : SendResult
deriving DecidableEq, Repr

/-- A composed message: `(subject, html, text)` as returned by
`email_body`. -/
abbrev Message : Type := String × String × String

/-- Python `str.lower()`: each character lowercased. -/
def py_lower (s : String) : String := ⟨s.data.map Char.toLower⟩

/-- Python `str.upper()`: each character uppercased. -/
def py_upper (s : String) : String := ⟨s.data.map Char.toUpper⟩

/-- Python `str.strip()`: whitespace removed from both ends. -/
def py_strip (s : String) : String :=
  ⟨(((s.data.dropWhile Char.isWhitespace).reverse.dropWhile
      Char.isWhitespace).reverse)⟩

/-- Python `str.replace(old, new)` with a single-character `old`: every
occurrence of `old` becomes the character list `rep`. -/
def expandChar : List Char → Char → List Char → List Char
  | [], _, _ => []
  | c :: cs, a, rep => (if c = a then rep else [c]) ++ expandChar cs a rep

/-- `comment.replace("\n", "<br>")` (server.py 196). -/
def nlToBr (s : String) : String := ⟨expandChar s.data '\n' "<br>".data⟩

/-- `email_body(rec, decision, event)` (server.py 176-198).  The link base
comes from `base_url()` (server.py 40-43: the `BASE_URL` override if set,
otherwise the inbound request's host), made explicit here as `baseUrl`. -/
def email_body (baseUrl : String) (rec : Record) (decision : String)
    (event : Event) : Message :=
  let proof_url := baseUrl ++ "/proof/" ++ rec.token
  let subject := "[Proof] " ++ rec.original_name ++ " -- " ++ py_upper decision
  let text :=
    "Proof decision received.\n\n" ++
    "File: " ++ rec.original_name ++
    "\nLink: " ++ proof_url ++
    "\nDecision: " ++ decision ++
    "\nName: " ++ event.viewer_name ++
    "\nEmail: " ++ event.viewer_email ++
    "\nComment:\n" ++ event.comment ++
    "\n\nTime (UTC): " ++ event.ts_utc ++
    "\nIP: " ++ event.ip ++ "\n"
  let html :=
    "<h2>Proof decision received</h2>" ++
    "<p><b>File:</b> " ++ rec.original_name ++ "</p>" ++
    "<p><b>Link:</b> <a href='" ++ proof_url ++ "'>" ++ proof_url ++ "</a></p>" ++
    "<p><b>Decision:</b> " ++ decision ++ "</p>" ++
    "<p><b>Name:</b> " ++ event.viewer_name ++ " &lt;" ++ event.viewer_email ++ "&gt;</p>" ++
    "<p><b>Comment:</b><br>" ++ nlToBr event.comment ++ "</p>" ++
    "<p><small>Time (UTC): " ++ event.ts_utc ++ " | IP: " ++ event.ip ++ "</small></p>"
  (subject, html, text)

/-- The warning text built on an exception from `send_email`
(server.py 241, 249). -/
def failText (cfg : Config) (e : String) : String :=
  "Email send failed (" ++ cfg.smtpHost ++ ":" ++ toString cfg.smtpPort ++ "): " ++ e

/-- The warning text built when the async future misses the timeout
(server.py 247). -/
def timeoutText (cfg : Config) : String :=
  "Email is sending in background (timeout " ++ toString cfg.smtpTimeout ++ "s)."

/-- The notification block of `respond_form` (server.py 232-249): returns
the warning string, the list of messages composed via `email_body`, and the
list of messages handed to the outbound channel (`send_email` directly in
sync mode, `executor.submit(send_email, ...)` otherwise).  In synchronous
mode a channel timeout surfaces as an ordinary exception from `smtplib`,
caught by the generic `except Exception` handler. -/
def notifyOutcome (cfg : Config) (baseUrl : String) (rec : Record)
    (decision : String) (event : Event) (sr : SendResult) :
    String × List Message × List Message :=
  if cfg.emailMode = "off" then ("", [], [])
  else
    let msg := email_body baseUrl rec decision event
    if cfg.emailMode = "sync" then
      match sr with
      | .ok => ("", [msg], [msg])
      | .exn e => (failText cfg e, [msg], [msg])
      | .timeout => (failText cfg "timed out", [msg], [msg])
    else
      match sr with
      | .ok => ("", [msg], [msg])
      | .exn e => (failText cfg e, [msg], [msg])
      | .timeout => (timeoutText cfg, [msg], [msg])

/-- The user-visible outcome of one `/respond/<token>` POST: which
`result.html` rendering happens (server.py 204, 213, 216, 251). -/
inductive RespondResult where
  | notFound : RespondResult
  | invalidDecision : RespondResult
  | commentRequired : RespondResult
  | success (warning : String) : RespondResult
deriving DecidableEq, Repr

/-- Full effect of one `/respond/<token>` POST: the store after the call,
the rendered result, the messages composed, and the messages handed to the
outbound channel. -/
structure RespondOutput where
  store : Store
  result : RespondResult
  composed : List Message
  sent : List Message

/-- `respond_form(token)` (server.py 200-253).  `decision?`, `comment?`,
`viewer_name?`, `viewer_email?` are the raw form fields (absent = `none`);
`ip` is the `X-Forwarded-For` / remote address value (line 219), `now` the
UTC timestamp string (line 221), `baseUrl` the `base_url()` value, `sr` the
outbound channel's behaviour. -/
def respond_form (cfg : Config) (st : Store) (token : String)
    (decision? comment? viewer_name? viewer_email? : Option String)
    (ip now baseUrl : String) (sr : SendResult) : RespondOutput :=
  match load_record st token with
  | none => ⟨st, .notFound, [], []⟩
  | some r =>
    let decision := py_lower (decision?.getD "")
    let comment := py_strip (comment?.getD "")
    let viewer_name := py_strip (viewer_name?.getD "")
    let viewer_email := py_strip (viewer_email?.getD "")
    if ¬(decision = "approved" ∨ decision = "rejected") then
      ⟨st, .invalidDecision, [], []⟩
    else if decision = "rejected" ∧ comment = "" then
      ⟨st, .commentRequired, [], []⟩
    else
      let event : Event :=
        ⟨now, decision, comment, viewer_name, viewer_email, ip⟩
      let r' : Record :=
        { r with status := decision, responses := r.responses ++ [event] }
      let st' := save_record st token r'
      let n := notifyOutcome cfg baseUrl r' decision event sr
      ⟨st', .success n.1, n.2.1, n.2.2⟩

/-- Character-wise substitution: the effect of Python's
`str.replace(old, new)` when `old` and `new` are single characters
(every occurrence of `old` is replaced). -/
def replaceChar : List Char → Char → Char → List Char
  | [], _, _ => []
  | c :: cs, a, b => (if c = a then b else c) :: replaceChar cs a b

/-- `original_name.replace("/", "_").replace("\\", "_")`
(server.py 118, 143). -/
def safe_name (original : String) : String :=
  ⟨replaceChar (replaceChar original.data '/' '_') '\\' '_'⟩

/-- The on-disk path of the saved upload,
`os.path.join(UPLOAD_DIR, token, safe_name)` (server.py 116-119). -/
def pdf_path (uploadDir token stored : String) : String :=
  uploadDir ++ "/" ++ token ++ "/" ++ stored

/-- The record built by `upload_post` / `api_upload`
(server.py 114-125, 143-150): fresh token, sanitised stored name, status
`"pending"`, empty history; the record is persisted under its token. -/
def upload_post (st : Store) (original_name token now : String) :
    Store × Record :=
  let stored := safe_name original_name
  let record : Record :=
    ⟨token, original_name, stored, now, "pending", []⟩
  (save_record st token record, record)

/-- The records reachable through the public operations: created by an
upload, then rewritten only by `/respond/<token>` submissions. -/
inductive Reachable : Record → Prop where
  | upload (st : Store) (original_name token now : String) :
      Reachable (upload_post st original_name token now).2
  | respond (cfg : Config) (st : Store) (token : String)
      (d? c? n? e? : Option String) (ip now baseUrl : String)
      (sr : SendResult) (r r' : Record) :
      Reachable r → st token = some r →
      (respond_form cfg st token d? c? n? e? ip now baseUrl sr).store token
        = some r' →
      Reachable r'

/-- The derived-status invariant: `status` equals the decision of the last
response, or `"pending"` when there is none. -/
def statusInvariant (r : Record) : Prop :=
  r.status = ((r.responses.getLast?).map Event.decision).getD "pending"

instance (r : Record) : Decidable (statusInvariant r) := by
  unfold statusInvariant; infer_instance

/-- `s` contains `t` as a contiguous substring. -/
def containsStr (s t : String) : Prop :=
  ∃ p q : String, s = p ++ (t ++ q)

/-! ### Concrete fixtures used by witnesses and counterexamples -/

/-- A concrete decision event. -/
def ev0 : Event :=
  ⟨"2026-01-01T00:00:00Z", "approved", "", "", "", "1.2.3.4"⟩

/-- A concrete freshly-uploaded record. -/
def rec0 : Record :=
  ⟨"tok", "a.pdf", "a.pdf", "2026-01-01T00:00:00Z", "pending", []⟩

/-- A store holding exactly `rec0`. -/
def st0 : Store := save_record emptyStore "tok" rec0

/-- The default configuration (server.py 18-26 with no environment
overrides): bounded-async delivery, timeout 10. -/
def cfg0 : Config := ⟨"smtp.example.com", 587, 10, "async"⟩

/-- The same configuration with `EMAIL_MODE=off`. -/
def cfgOff : Config := ⟨"smtp.example.com", 587, 10, "off"⟩

/-- The decision event built from the form fields (server.py 220-227). -/
def mkEvent (d? c? n? e? : Option String) (ip now : String) : Event :=
  ⟨now, py_lower (d?.getD ""), py_strip (c?.getD ""),
    py_strip (n?.getD ""), py_strip (e?.getD ""), ip⟩

/-- The record mutation of a successful submission (server.py 228-229):
append the event, set `status` to its decision. -/
def applyDecision (r : Record) (ev : Event) : Record :=
  { r with status := ev.decision, responses := r.responses ++ [ev] }

/-! ### Helper lemmas -/

theorem save_record_self (st : Store) (token : String) (r : Record) :
    save_record st token r token = some r := by
  simp [save_record]

theorem respond_form_notFound_eq (cfg : Config) (st : Store) (token : String)
    (d? c? n? e? : Option String) (ip now baseUrl : String) (sr : SendResult)
    (hst : st token = none) :
    respond_form cfg st token d? c? n? e? ip now baseUrl sr
      = ⟨st, .notFound, [], []⟩ := by
  unfold respond_form load_record
  rw [hst]

theorem respond_form_invalid_eq (cfg : Config) (st : Store) (token : String)
    (d? c? n? e? : Option String) (ip now baseUrl : String) (sr : SendResult)
    (r : Record) (hst : st token = some r)
    (hd : ¬(py_lower (d?.getD "") = "approved" ∨ py_lower (d?.getD "") = "rejected")) :
    respond_form cfg st token d? c? n? e? ip now baseUrl sr
      = ⟨st, .invalidDecision, [], []⟩ := by
  unfold respond_form load_record
  rw [hst]
  simp only [if_pos hd]

theorem respond_form_commentRequired_eq (cfg : Config) (st : Store) (token : String)
    (d? c? n? e? : Option String) (ip now baseUrl : String) (sr : SendResult)
    (r : Record) (hst : st token = some r)
    (hd : py_lower (d?.getD "") = "rejected")
    (hc : py_strip (c?.getD "") = "") :
    respond_form cfg st token d? c? n? e? ip now baseUrl sr
      = ⟨st, .commentRequired, [], []⟩ := by
  unfold respond_form load_record
  rw [hst]
  dsimp only
  rw [if_neg (not_not_intro
    (show py_lower (d?.getD "") = "approved" ∨ py_lower (d?.getD "") = "rejected"
      from Or.inr hd))]
  rw [if_pos ⟨hd, hc⟩]

theorem respond_form_valid_eq (cfg : Config) (st : Store) (token : String)
    (d? c? n? e? : Option String) (ip now baseUrl : String) (sr : SendResult)
    (r : Record) (hst : st token = some r)
    (hd : py_lower (d?.getD "") = "approved" ∨ py_lower (d?.getD "") = "rejected")
    (hc : py_lower (d?.getD "") = "rejected" → py_strip (c?.getD "") ≠ "") :
    respond_form cfg st token d? c? n? e? ip now baseUrl sr =
      let event : Event := ⟨now, py_lower (d?.getD ""), py_strip (c?.getD ""),
        py_strip (n?.getD ""), py_strip (e?.getD ""), ip⟩
      let r' : Record :=
        { r with status := py_lower (d?.getD ""), responses := r.responses ++ [event] }
      let n := notifyOutcome cfg baseUrl r' (py_lower (d?.getD "")) event sr
      ⟨save_record st token r', .success n.1, n.2.1, n.2.2⟩ := by
  unfold respond_form load_record
  rw [hst]
  dsimp only
  rw [if_neg (not_not_intro hd)]
  rw [if_neg (fun hcc => hc hcc.1 hcc.2)]

theorem str_append_ne_empty (a b : String) (ha : a ≠ "") : a ++ b ≠ "" := by
  intro h
  apply ha
  have hd := congrArg String.data h
  rw [String.data_append] at hd
  rcases List.append_eq_nil.mp hd with ⟨h1, _⟩
  exact String.ext h1

theorem failText_ne_empty (cfg : Config) (e : String) :
    failText cfg e ≠ "" := by
  unfold failText
  apply str_append_ne_empty
  apply str_append_ne_empty
  apply str_append_ne_empty
  apply str_append_ne_empty
  apply str_append_ne_empty
  decide

theorem timeoutText_ne_empty (cfg : Config) : timeoutText cfg ≠ "" := by
  unfold timeoutText
  apply str_append_ne_empty
  apply str_append_ne_empty
  decide

theorem containsStr_suffix (u t : String) : containsStr (u ++ t) t :=
  ⟨u, "", by rw [String.append_empty]⟩

theorem containsStr_appendRight (s u t : String) :
    containsStr s t → containsStr (s ++ u) t := by
  rintro ⟨p, q, rfl⟩
  exact ⟨p, q ++ u, by rw [String.append_assoc, String.append_assoc]⟩

theorem replaceChar_eq_map (l : List Char) (a b : Char) :
    replaceChar l a b = l.map (fun c => if c = a then b else c) := by
  induction l with
  | nil => rfl
  | cons c cs ih => simp [replaceChar, ih]

theorem respond_form_valid_eq2 (cfg : Config) (st : Store) (token : String)
    (d? c? n? e? : Option String) (ip now baseUrl : String) (sr : SendResult)
    (r : Record) (hst : st token = some r)
    (hd : py_lower (d?.getD "") = "approved" ∨ py_lower (d?.getD "") = "rejected")
    (hc : py_lower (d?.getD "") = "rejected" → py_strip (c?.getD "") ≠ "") :
    respond_form cfg st token d? c? n? e? ip now baseUrl sr =
      ⟨save_record st token (applyDecision r (mkEvent d? c? n? e? ip now)),
       .success (notifyOutcome cfg baseUrl (applyDecision r (mkEvent d? c? n? e? ip now))
         (py_lower (d?.getD "")) (mkEvent d? c? n? e? ip now) sr).1,
       (notifyOutcome cfg baseUrl (applyDecision r (mkEvent d? c? n? e? ip now))
         (py_lower (d?.getD "")) (mkEvent d? c? n? e? ip now) sr).2.1,
       (notifyOutcome cfg baseUrl (applyDecision r (mkEvent d? c? n? e? ip now))
         (py_lower (d?.getD "")) (mkEvent d? c? n? e? ip now) sr).2.2⟩ :=
  respond_form_valid_eq cfg st token d? c? n? e? ip now baseUrl sr r hst hd hc

theorem applyDecision_statusInvariant (r : Record) (ev : Event) :
    statusInvariant (applyDecision r ev) := by
  simp [applyDecision, statusInvariant, List.getLast?_concat]


/-! ### Claims -/

/-- C7: a record written through the store under a token and read back
under the same token is returned field-for-field equal, including the full
`responses` history and the `status` field. -/
theorem store_roundtrip (st : Store) (token : String) (r : Record) :
    load_record (save_record st token r) token = some r := by
  simp [load_record, save_record]

/-- C1: every record reachable through the public operations (created by
upload with status `"pending"` and empty responses, then mutated only by
decision submission) has `status` equal to the decision of the last element
of `responses`, or `"pending"` if `responses` is empty. -/
theorem reachable_status_derived (r : Record) (h : Reachable r) :
    statusInvariant r := by
  induction h with
  | upload st original_name token now =>
      simp [upload_post, statusInvariant]
  | respond cfg st token d? c? n? e? ip now baseUrl sr rc r' hr hst hout ih =>
      by_cases hd : py_lower (d?.getD "") = "approved" ∨ py_lower (d?.getD "") = "rejected"
      · by_cases hcc : py_lower (d?.getD "") = "rejected" ∧ py_strip (c?.getD "") = ""
        · rw [respond_form_commentRequired_eq cfg st token d? c? n? e? ip now baseUrl sr
            rc hst hcc.1 hcc.2] at hout
          dsimp only at hout
          rw [hst] at hout
          obtain rfl := Option.some.inj hout
          exact ih
        · have hc : py_lower (d?.getD "") = "rejected" → py_strip (c?.getD "") ≠ "" :=
            fun h1 h2 => hcc ⟨h1, h2⟩
          rw [respond_form_valid_eq2 cfg st token d? c? n? e? ip now baseUrl sr
            rc hst hd hc] at hout
          dsimp only at hout
          rw [save_record_self] at hout
          obtain rfl := Option.some.inj hout
          exact applyDecision_statusInvariant rc (mkEvent d? c? n? e? ip now)
      · rw [respond_form_invalid_eq cfg st token d? c? n? e? ip now baseUrl sr rc hst hd] at hout
        dsimp only at hout
        rw [hst] at hout
        obtain rfl := Option.some.inj hout
        exact ih

/-- C1 witness: a freshly uploaded record is reachable and satisfies the
derived-status invariant. -/
theorem reachable_status_derived_witness :
    statusInvariant (upload_post emptyStore "a.pdf" "tok" "2026-01-01T00:00:00Z").2 :=
  reachable_status_derived _
    (Reachable.upload emptyStore "a.pdf" "tok" "2026-01-01T00:00:00Z")

/-- C4: for a token with no record, `respond_form` renders not-found and
changes nothing — store unchanged, no event, nothing composed, nothing
sent — regardless of the decision and comment supplied. -/
theorem unknown_token_always_notFound (cfg : Config) (st : Store)
    (token : String) (d? c? n? e? : Option String) (ip now baseUrl : String)
    (sr : SendResult) (hst : st token = none) :
    respond_form cfg st token d? c? n? e? ip now baseUrl sr
      = ⟨st, .notFound, [], []⟩ :=
  respond_form_notFound_eq cfg st token d? c? n? e? ip now baseUrl sr hst

/-- C4 witness: an unknown token with an invalid decision and empty comment
still yields not-found. -/
theorem unknown_token_always_notFound_witness :
    respond_form cfg0 emptyStore "ghost" (some "maybe") none none none
      "1.2.3.4" "t" "http://example.com" .ok = ⟨emptyStore, .notFound, [], []⟩ :=
  unknown_token_always_notFound cfg0 emptyStore "ghost" (some "maybe") none none none
    "1.2.3.4" "t" "http://example.com" .ok rfl

/-- C3 counterexample: the decision string `"Approved"` lies outside
{`"approved"`, `"rejected"`}, yet the submission succeeds instead of
failing with InvalidDecision, because the code lowercases first. -/
theorem mixed_case_decision_accepted :
    ("Approved" ≠ "approved" ∧ "Approved" ≠ "rejected") ∧
    (respond_form cfg0 st0 "tok" (some "Approved") none none none
      "1.2.3.4" "2026-01-02T00:00:00Z" "http://example.com" .ok).result
      = .success "" :=
  ⟨by decide, by decide⟩

/-- C3 amended: for every existing record, a submission whose decision is,
after lowercasing, outside {approved, rejected} fails with InvalidDecision,
and one whose lowercased decision is rejected with a comment empty after
trimming fails with CommentRequired; in both cases the stored record is
unchanged (the store is returned as-is) and nothing is composed or sent. -/
theorem invalid_inputs_leave_record_unchanged (cfg : Config) (st : Store)
    (token : String) (d? c? n? e? : Option String) (ip now baseUrl : String)
    (sr : SendResult) (r : Record) (hst : st token = some r) :
    (¬(py_lower (d?.getD "") = "approved" ∨ py_lower (d?.getD "") = "rejected") →
      respond_form cfg st token d? c? n? e? ip now baseUrl sr
        = ⟨st, .invalidDecision, [], []⟩) ∧
    (py_lower (d?.getD "") = "rejected" → py_strip (c?.getD "") = "" →
      respond_form cfg st token d? c? n? e? ip now baseUrl sr
        = ⟨st, .commentRequired, [], []⟩) :=
  ⟨fun hd => respond_form_invalid_eq cfg st token d? c? n? e? ip now baseUrl sr r hst hd,
   fun hd hc => respond_form_commentRequired_eq cfg st token d? c? n? e? ip now baseUrl sr
     r hst hd hc⟩

/-- C3 witness: decision `"maybe"` is rejected as invalid, and decision
`"rejected"` with a whitespace-only comment is rejected as needing a
comment; the store is untouched both times. -/
theorem invalid_inputs_leave_record_unchanged_witness :
    (respond_form cfg0 st0 "tok" (some "maybe") none none none
        "1.2.3.4" "t" "http://example.com" .ok = ⟨st0, .invalidDecision, [], []⟩) ∧
    (respond_form cfg0 st0 "tok" (some "rejected") (some "   ") none none
        "1.2.3.4" "t" "http://example.com" .ok = ⟨st0, .commentRequired, [], []⟩) :=
  ⟨(invalid_inputs_leave_record_unchanged cfg0 st0 "tok" (some "maybe") none none none
      "1.2.3.4" "t" "http://example.com" .ok rec0 (by decide)).1 (by decide),
   (invalid_inputs_leave_record_unchanged cfg0 st0 "tok" (some "rejected") (some "   ")
      none none "1.2.3.4" "t" "http://example.com" .ok rec0 (by decide)).2
     (by decide) (by decide)⟩

/-- C2: for every existing record and valid submission, `respond_form`
succeeds, appends exactly one event carrying the (lowercased) decision and
sets `status` to it; a second valid submission for the same token is not an
error: starting from a fresh record, `responses` then has length 2 and
`status` equals the second decision (last-write-wins). -/
theorem submit_appends_and_last_write_wins (cfg : Config) (st : Store)
    (token : String) (r : Record)
    (d1? c1? n1? e1? d2? c2? n2? e2? : Option String)
    (ip1 now1 bu1 ip2 now2 bu2 : String) (sr1 sr2 : SendResult)
    (hst : st token = some r)
    (hd1 : py_lower (d1?.getD "") = "approved" ∨ py_lower (d1?.getD "") = "rejected")
    (hc1 : py_lower (d1?.getD "") = "rejected" → py_strip (c1?.getD "") ≠ "")
    (hd2 : py_lower (d2?.getD "") = "approved" ∨ py_lower (d2?.getD "") = "rejected")
    (hc2 : py_lower (d2?.getD "") = "rejected" → py_strip (c2?.getD "") ≠ "") :
    (∃ w1, (respond_form cfg st token d1? c1? n1? e1? ip1 now1 bu1 sr1).result
        = .success w1) ∧
    (respond_form cfg st token d1? c1? n1? e1? ip1 now1 bu1 sr1).store token
        = some (applyDecision r (mkEvent d1? c1? n1? e1? ip1 now1)) ∧
    (applyDecision r (mkEvent d1? c1? n1? e1? ip1 now1)).responses
        = r.responses ++ [mkEvent d1? c1? n1? e1? ip1 now1] ∧
    (applyDecision r (mkEvent d1? c1? n1? e1? ip1 now1)).status
        = py_lower (d1?.getD "") ∧
    (∃ w2, (respond_form cfg
        (respond_form cfg st token d1? c1? n1? e1? ip1 now1 bu1 sr1).store
        token d2? c2? n2? e2? ip2 now2 bu2 sr2).result = .success w2) ∧
    (respond_form cfg
        (respond_form cfg st token d1? c1? n1? e1? ip1 now1 bu1 sr1).store
        token d2? c2? n2? e2? ip2 now2 bu2 sr2).store token
      = some (applyDecision (applyDecision r (mkEvent d1? c1? n1? e1? ip1 now1))
          (mkEvent d2? c2? n2? e2? ip2 now2)) ∧
    (r.responses = [] →
      (applyDecision (applyDecision r (mkEvent d1? c1? n1? e1? ip1 now1))
          (mkEvent d2? c2? n2? e2? ip2 now2)).responses.length = 2 ∧
      (applyDecision (applyDecision r (mkEvent d1? c1? n1? e1? ip1 now1))
          (mkEvent d2? c2? n2? e2? ip2 now2)).status = py_lower (d2?.getD "") ∧
      (applyDecision (applyDecision r (mkEvent d1? c1? n1? e1? ip1 now1))
          (mkEvent d2? c2? n2? e2? ip2 now2)).responses.getLast?
        = some (mkEvent d2? c2? n2? e2? ip2 now2)) := by
  have h1 := respond_form_valid_eq2 cfg st token d1? c1? n1? e1? ip1 now1 bu1 sr1
    r hst hd1 hc1
  have hlook : (respond_form cfg st token d1? c1? n1? e1? ip1 now1 bu1 sr1).store token
      = some (applyDecision r (mkEvent d1? c1? n1? e1? ip1 now1)) := by
    rw [h1]; exact save_record_self st token _
  have h2 := respond_form_valid_eq2 cfg
    (respond_form cfg st token d1? c1? n1? e1? ip1 now1 bu1 sr1).store
    token d2? c2? n2? e2? ip2 now2 bu2 sr2
    (applyDecision r (mkEvent d1? c1? n1? e1? ip1 now1)) hlook hd2 hc2
  refine ⟨⟨_, by rw [h1]⟩, hlook, rfl, rfl, ⟨_, by rw [h2]⟩, ?_, ?_⟩
  · rw [h2]; exact save_record_self _ token _
  · intro hempty
    refine ⟨?_, rfl, ?_⟩
    · simp [applyDecision, hempty]
    · simp [applyDecision, List.getLast?_concat]

/-- C2 witness: a fresh record accepts "approved" and then "REJECTED" with
a comment; the stored history has length 2 and status "rejected". -/
theorem submit_appends_and_last_write_wins_witness :
    (applyDecision (applyDecision rec0
        (mkEvent (some "approved") none none none "1.2.3.4" "t1"))
        (mkEvent (some "REJECTED") (some " too dark ") none none "1.2.3.4" "t2")).responses.length = 2 ∧
    (applyDecision (applyDecision rec0
        (mkEvent (some "approved") none none none "1.2.3.4" "t1"))
        (mkEvent (some "REJECTED") (some " too dark ") none none "1.2.3.4" "t2")).status = "rejected" ∧
    (applyDecision (applyDecision rec0
        (mkEvent (some "approved") none none none "1.2.3.4" "t1"))
        (mkEvent (some "REJECTED") (some " too dark ") none none "1.2.3.4" "t2")).responses.getLast?
      = some (mkEvent (some "REJECTED") (some " too dark ") none none "1.2.3.4" "t2") :=
  (submit_appends_and_last_write_wins cfg0 st0 "tok" rec0
    (some "approved") none none none
    (some "REJECTED") (some " too dark ") none none
    "1.2.3.4" "t1" "http://example.com" "1.2.3.4" "t2" "http://example.com" .ok .ok
    (by decide) (by decide) (by decide) (by decide) (by decide)).2.2.2.2.2.2 (by decide)

/-- C5: for every valid submission with notifications enabled, the mutated
record is persisted identically for every channel behaviour (so a
notification failure or timeout never rolls it back), and when the channel
raises or times out the call still succeeds, with a non-empty warning. -/
theorem notification_failure_never_fatal (cfg : Config) (st : Store)
    (token : String) (r : Record) (d? c? n? e? : Option String)
    (ip now baseUrl : String) (sr : SendResult) (err : String)
    (hst : st token = some r)
    (hd : py_lower (d?.getD "") = "approved" ∨ py_lower (d?.getD "") = "rejected")
    (hc : py_lower (d?.getD "") = "rejected" → py_strip (c?.getD "") ≠ "")
    (hmode : cfg.emailMode ≠ "off")
    (hfail : sr = .exn err ∨ sr = .timeout) :
    (∀ sr' : SendResult,
      (respond_form cfg st token d? c? n? e? ip now baseUrl sr').store
        = save_record st token (applyDecision r (mkEvent d? c? n? e? ip now))) ∧
    (respond_form cfg st token d? c? n? e? ip now baseUrl sr).store token
      = some (applyDecision r (mkEvent d? c? n? e? ip now)) ∧
    (∃ w, (respond_form cfg st token d? c? n? e? ip now baseUrl sr).result
        = .success w ∧ w ≠ "") := by
  refine ⟨?_, ?_, ?_⟩
  · intro sr'
    rw [respond_form_valid_eq2 cfg st token d? c? n? e? ip now baseUrl sr' r hst hd hc]
  · rw [respond_form_valid_eq2 cfg st token d? c? n? e? ip now baseUrl sr r hst hd hc]
    exact save_record_self st token _
  · rw [respond_form_valid_eq2 cfg st token d? c? n? e? ip now baseUrl sr r hst hd hc]
    refine ⟨_, rfl, ?_⟩
    unfold notifyOutcome
    rw [if_neg hmode]
    rcases hfail with rfl | rfl
    · by_cases hs : cfg.emailMode = "sync" <;> simp [hs, failText_ne_empty]
    · by_cases hs : cfg.emailMode = "sync" <;>
        simp [hs, failText_ne_empty, timeoutText_ne_empty]

/-- C5 witness: with the default bounded-async configuration and a channel
that never finishes in time, the call still succeeds with a non-empty
warning. -/
theorem notification_failure_never_fatal_witness :
    ∃ w, (respond_form cfg0 st0 "tok" (some "approved") none none none
        "1.2.3.4" "t" "http://example.com" .timeout).result = .success w ∧ w ≠ "" :=
  (notification_failure_never_fatal cfg0 st0 "tok" rec0 (some "approved") none none none
    "1.2.3.4" "t" "http://example.com" .timeout "e" (by decide) (by decide)
    (by decide) (by decide) (Or.inr rfl)).2.2

/-- C8: with `EMAIL_MODE=off`, every valid submission completes with an
empty warning, composes no message, hands nothing to the outbound channel,
and still persists the mutated record. -/
theorem disabled_mode_no_send (cfg : Config) (st : Store) (token : String)
    (r : Record) (d? c? n? e? : Option String) (ip now baseUrl : String)
    (sr : SendResult) (hst : st token = some r)
    (hd : py_lower (d?.getD "") = "approved" ∨ py_lower (d?.getD "") = "rejected")
    (hc : py_lower (d?.getD "") = "rejected" → py_strip (c?.getD "") ≠ "")
    (hmode : cfg.emailMode = "off") :
    (respond_form cfg st token d? c? n? e? ip now baseUrl sr).result = .success "" ∧
    (respond_form cfg st token d? c? n? e? ip now baseUrl sr).composed = [] ∧
    (respond_form cfg st token d? c? n? e? ip now baseUrl sr).sent = [] ∧
    (respond_form cfg st token d? c? n? e? ip now baseUrl sr).store token
      = some (applyDecision r (mkEvent d? c? n? e? ip now)) := by
  rw [respond_form_valid_eq2 cfg st token d? c? n? e? ip now baseUrl sr r hst hd hc]
  unfold notifyOutcome
  rw [if_pos hmode]
  exact ⟨rfl, rfl, rfl, save_record_self st token _⟩

/-- C8 witness: in off mode a valid approval yields an empty warning and an
empty compose/send trace. -/
theorem disabled_mode_no_send_witness :
    (respond_form cfgOff st0 "tok" (some "approved") none none none
        "1.2.3.4" "t" "http://example.com" .ok).result = .success "" ∧
    (respond_form cfgOff st0 "tok" (some "approved") none none none
        "1.2.3.4" "t" "http://example.com" .ok).composed = [] ∧
    (respond_form cfgOff st0 "tok" (some "approved") none none none
        "1.2.3.4" "t" "http://example.com" .ok).sent = [] :=
  ⟨(disabled_mode_no_send cfgOff st0 "tok" rec0 (some "approved") none none none
      "1.2.3.4" "t" "http://example.com" .ok (by decide) (by decide) (by decide) rfl).1,
   (disabled_mode_no_send cfgOff st0 "tok" rec0 (some "approved") none none none
      "1.2.3.4" "t" "http://example.com" .ok (by decide) (by decide) (by decide) rfl).2.1,
   (disabled_mode_no_send cfgOff st0 "tok" rec0 (some "approved") none none none
      "1.2.3.4" "t" "http://example.com" .ok (by decide) (by decide) (by decide) rfl).2.2.1⟩

/-- C9: the submitted decision is lowercased before the membership check,
so any casing whose lowercase form is approved/rejected is accepted, and
the stored event's decision (and the derived status) is the lowercase
form. -/
theorem decision_case_insensitive (cfg : Config) (st : Store) (token : String)
    (r : Record) (d? c? n? e? : Option String) (ip now baseUrl : String)
    (sr : SendResult) (hst : st token = some r)
    (hd : py_lower (d?.getD "") = "approved" ∨ py_lower (d?.getD "") = "rejected")
    (hc : py_lower (d?.getD "") = "rejected" → py_strip (c?.getD "") ≠ "") :
    (∃ w, (respond_form cfg st token d? c? n? e? ip now baseUrl sr).result
        = .success w) ∧
    (∃ r', (respond_form cfg st token d? c? n? e? ip now baseUrl sr).store token
        = some r' ∧ r'.status = py_lower (d?.getD "") ∧
        r'.responses.getLast?.map Event.decision = some (py_lower (d?.getD ""))) := by
  rw [respond_form_valid_eq2 cfg st token d? c? n? e? ip now baseUrl sr r hst hd hc]
  refine ⟨⟨_, rfl⟩, applyDecision r (mkEvent d? c? n? e? ip now),
    save_record_self st token _, rfl, ?_⟩
  simp [applyDecision, mkEvent, List.getLast?_concat]

/-- C9 witness: the input `"APPROVED"` is accepted and stored as
`"approved"`, not in its original casing. -/
theorem decision_case_insensitive_witness :
    ("APPROVED" ≠ "approved") ∧
    (∃ r', (respond_form cfg0 st0 "tok" (some "APPROVED") none none none
        "1.2.3.4" "t" "http://example.com" .ok).store "tok"
        = some r' ∧ r'.status = "approved" ∧
        r'.responses.getLast?.map Event.decision = some "approved") :=
  ⟨by decide,
   (decision_case_insensitive cfg0 st0 "tok" rec0 (some "APPROVED") none none none
     "1.2.3.4" "t" "http://example.com" .ok (by decide) (by decide) (by decide)).2⟩

/-- C6 counterexample: two calls of `email_body` with equal (record, event)
inputs but different origin base URLs (without a `BASE_URL` override,
`base_url()` returns the inbound request's host) produce different
messages, so the composer is not a function of the (record, event) pair
alone. -/
theorem composer_depends_on_request_host :
    email_body "http://a.example" rec0 "approved" ev0
      ≠ email_body "http://b.example" rec0 "approved" ev0 := by decide

/-- C6 amended: `email_body` is a pure, deterministic function of the
(record, event) pair together with the origin base URL (the configured
override or the request host): equal inputs give equal outputs; in the rich
body, newlines in the comment are encoded as line breaks, and the body
includes the document link, decision, reviewer name and email, comment,
timestamp, and origin address. -/
theorem composer_deterministic_and_content (bu bu2 : String) (r r2 : Record)
    (d d2 : String) (ev ev2 : Event)
    (hb : bu = bu2) (hr : r = r2) (hdq : d = d2) (he : ev = ev2) :
    email_body bu r d ev = email_body bu2 r2 d2 ev2 ∧
    containsStr (email_body bu r d ev).2.1 (bu ++ "/proof/" ++ r.token) ∧
    containsStr (email_body bu r d ev).2.1 d ∧
    containsStr (email_body bu r d ev).2.1 ev.viewer_name ∧
    containsStr (email_body bu r d ev).2.1 ev.viewer_email ∧
    containsStr (email_body bu r d ev).2.1 (nlToBr ev.comment) ∧
    containsStr (email_body bu r d ev).2.1 ev.ts_utc ∧
    containsStr (email_body bu r d ev).2.1 ev.ip := by
  refine ⟨by rw [hb, hr, hdq, he], ?_, ?_, ?_, ?_, ?_, ?_, ?_⟩ <;>
    · dsimp only [email_body]
      repeat
        first
          | exact containsStr_suffix _ _
          | apply containsStr_appendRight

/-- C6 witness: the content and determinism facts at a concrete input. -/
theorem composer_deterministic_and_content_witness :
    email_body "http://a.example" rec0 "approved" ev0
      = email_body "http://a.example" rec0 "approved" ev0 ∧
    containsStr (email_body "http://a.example" rec0 "approved" ev0).2.1
      ("http://a.example" ++ "/proof/" ++ rec0.token) ∧
    containsStr (email_body "http://a.example" rec0 "approved" ev0).2.1 "approved" ∧
    containsStr (email_body "http://a.example" rec0 "approved" ev0).2.1 ev0.viewer_name ∧
    containsStr (email_body "http://a.example" rec0 "approved" ev0).2.1 ev0.viewer_email ∧
    containsStr (email_body "http://a.example" rec0 "approved" ev0).2.1 (nlToBr ev0.comment) ∧
    containsStr (email_body "http://a.example" rec0 "approved" ev0).2.1 ev0.ts_utc ∧
    containsStr (email_body "http://a.example" rec0 "approved" ev0).2.1 ev0.ip :=
  composer_deterministic_and_content "http://a.example" "http://a.example" rec0 rec0
    "approved" "approved" ev0 ev0 rfl rfl rfl rfl

/-- C10: the stored filename is the original name with every '/' and '\'
character replaced by '_' (character for character), so it contains no
path separator, and the saved path is the per-token upload directory plus
that separator-free name. -/
theorem stored_name_has_no_separators (st : Store) (uploadDir : String)
    (original_name token now : String) :
    (upload_post st original_name token now).2.stored_name = safe_name original_name ∧
    (safe_name original_name).data
      = original_name.data.map (fun c => if c = '/' ∨ c = '\\' then '_' else c) ∧
    (∀ c, c ∈ (safe_name original_name).data → c ≠ '/' ∧ c ≠ '\\') ∧
    pdf_path uploadDir token (upload_post st original_name token now).2.stored_name
      = uploadDir ++ "/" ++ token ++ "/" ++ safe_name original_name := by
  have hdata : (safe_name original_name).data
      = original_name.data.map (fun c => if c = '/' ∨ c = '\\' then '_' else c) := by
    show replaceChar (replaceChar original_name.data '/' '_') '\\' '_' = _
    rw [replaceChar_eq_map, replaceChar_eq_map, List.map_map]
    have hfun : ((fun c => if c = '\\' then '_' else c) ∘ fun c => if c = '/' then '_' else c)
        = fun c => if c = '/' ∨ c = '\\' then '_' else c := by
      funext c
      by_cases h1 : c = '/'
      · subst h1; decide
      · by_cases h2 : c = '\\'
        · subst h2; decide
        · simp [Function.comp, h1, h2]
    rw [hfun]
  refine ⟨rfl, hdata, ?_, rfl⟩
  intro c hc
  rw [hdata] at hc
  rcases List.mem_map.mp hc with ⟨x, hx, rfl⟩
  by_cases hx1 : x = '/'
  · subst hx1; decide
  · by_cases hx2 : x = '\\'
    · subst hx2; decide
    · rw [if_neg (not_or.mpr ⟨hx1, hx2⟩)]
      exact ⟨hx1, hx2⟩

/-- C10 witness: "a/b\c.pdf" is stored as "a_b_c.pdf", and its characters
are not path separators. -/
theorem stored_name_has_no_separators_witness :
    safe_name "a/b\\c.pdf" = "a_b_c.pdf" ∧ ('a' ≠ '/' ∧ 'a' ≠ '\\') :=
  ⟨by decide,
   (stored_name_has_no_separators emptyStore "uploads" "a/b\\c.pdf" "tok" "now").2.2.1 'a'
     (by decide)⟩
